import Mathlib

/-!
# pulumi-k3d provider: the cluster resource lifecycle

A shallow embedding of `provider/provider.go`: `defaultConfig`, `Cluster.Check`,
`Cluster.Create` and `Cluster.Delete`.

Conventions of the embedding.

* A Go `string` is a Lean `String` (valid UTF-8 text).
* A Go `error` is `Option GoError`; `none` is `nil`.
* The functions the provider calls in other packages (`os/exec`, `stripansi`,
  `fmt`, `infer.DefaultCheck`) are fields of `Host` or explicit arguments, so the
  theorems about the provider hold whatever those functions compute.  Concrete
  models of them are given separately, for the scenarios and for the statements
  that are about the library functions themselves.
* Side effects are returned as an ordered list of `Event`s: commands run and
  messages logged.
* The task that writes the config to the child's standard input is represented
  by the payload carried in `Cmd.Stdin`.  That task also stores the error of its
  write in `err` (line 80), the very variable `Create` assigns on lines 87 and 94
  and returns on lines 90 and 96, with nothing ordering the two.  The store is
  represented where a failing create call exposes it: `Host.WriterStore` is the
  value stored when the store lands after the create call has returned and before
  line 90 returns `err`.  On the other paths the embedding follows the executions
  in which the store lands before `CombinedOutput` returns and is overwritten by
  line 87.
-/

namespace provider

/-! ## Data model -/

/-- The error values that can come back from `os/exec`. -/
inductive GoError where
  /-- The child ran and ended with a non-zero status (`*exec.ExitError`). -/
  | ExitError (code : Nat)
  /-- The child could not be started (`*exec.Error`). -/
  | Error (msg : String)
  /-- A failed file operation (`*fs.PathError`), such as a write to a closed pipe. -/
  | PathError (msg : String)
  /-- Any other failure, such as the pipe for standard input not being created. -/
  | Other (msg : String)
  deriving DecidableEq, Repr

/-- A Go `error`: `none` is `nil`. -/
abbrev error := Option GoError

/-- The `ClusterArgs` struct: the desired state. -/
structure ClusterArgs where
  Name : String
  Version : String
  Config : String
  deriving DecidableEq, Repr

/-- The `ClusterState` struct: `ClusterArgs` embedded, plus the secret `KubeConfig`. -/
structure ClusterState extends ClusterArgs where
  KubeConfig : String
  deriving DecidableEq, Repr

/-- The severities of `diag`. -/
inductive Severity where
  | Debug | Info | Infoerr | Warning | Error
  deriving DecidableEq, Repr

/-- A child process as built by `exec.Command`: the argument vector (program name
first) and the text fed to its standard input, if a pipe was attached. -/
structure Cmd where
  Args : List String
  Stdin : Option String
  deriving DecidableEq, Repr

/-- What a finished child process yields: standard output alone (`Output`), standard
output and standard error interleaved (`CombinedOutput`), and the error of the run. -/
structure ProcResult where
  Stdout : String
  Combined : String
  Err : error
  deriving DecidableEq, Repr

/-- An observable side effect of a lifecycle call. -/
inductive Event where
  /-- A command was run: `CombinedOutput` or `Output` was called on it. -/
  | Exec (cmd : Cmd)
  /-- The call `ctx.Logf(sev, ...)` was made, `msg` being the formatted message. -/
  | Logf (sev : Severity) (msg : String)
  deriving DecidableEq, Repr

/-- The collaborators of the provider that live outside `provider.go`. -/
structure Host where
  /-- The error result of `cmd.StdinPipe()`. -/
  StdinPipe : error
  /-- Running a child process to completion. -/
  Run : Cmd → ProcResult
  /-- The store `err = w` of the task that writes the config (line 80), `w` being the
  error result of `stdin.Write`: `some w` when it lands after the create call has
  returned, leaves the test of line 88 as it is and precedes the return of line 90;
  `none` when it lands before the create call returns. -/
  WriterStore : Option error
  /-- The function `stripansi.Strip`. -/
  Strip : String → String
  /-- The verb `%q` of `fmt` applied to a string. -/
  Quote : String → String

/-! ## `defaultConfig` -/

/-- The text of the default config before the cluster name. -/
def configHead : String :=
  "apiVersion: k3d.io/v1alpha5\nkind: Simple\nmetadata:\n  name: "

/-- The text of the default config after the cluster name. -/
def configTail : String :=
  "\nservers: 1\nagents: 1\n"

/-- The function `defaultConfig`. -/
def defaultConfig (name : String) : String :=
  configHead ++ name ++ configTail

/-! ## `Cluster.Create` and `Cluster.Delete` -/

/-- The command `k3d cluster create <name> --config -` with `config` on standard input. -/
def createCmd (name : String) (config : String) : Cmd :=
  { Args := ["k3d", "cluster", "create", name, "--config", "-"], Stdin := some config }

/-- The command `k3d kubeconfig get <name>`. -/
def kubeconfigCmd (name : String) : Cmd :=
  { Args := ["k3d", "kubeconfig", "get", name], Stdin := none }

/-- The command `k3d cluster delete <name>`. -/
def deleteCmd (name : String) : Cmd :=
  { Args := ["k3d", "cluster", "delete", name], Stdin := none }

/-- The three results of `Create`, with the side effects it caused, in order. -/
structure CreateResult where
  id : String
  state : ClusterState
  err : error
  events : List Event
  deriving DecidableEq, Repr

/-- The value of `input.Config` after the defaulting step of `Create`
(`if &input.Config == nil || input.Config == ""`): the address of a field is never
nil, so only the empty string brings in the default. -/
def stdinConfig (name : String) (input : ClusterArgs) : String :=
  if input.Config = "" then defaultConfig name else input.Config

/-- The method `Cluster.Create`.  The state is built from `input` before the
defaulting step, so it keeps the config as given.  The error returned after a failing
create call is read from `err` on line 90, after the message is logged. -/
def Create (h : Host) (name : String) (input : ClusterArgs) (preview : Bool) : CreateResult :=
  let state : ClusterState := { toClusterArgs := input, KubeConfig := "" }
  if preview then
    { id := name, state := state, err := none, events := [] }
  else
    let input : ClusterArgs := { input with Config := stdinConfig name input }
    let cmd := createCmd name input.Config
    match h.StdinPipe with
    | some e => { id := name, state := state, err := some e, events := [] }
    | none =>
      let r := h.Run cmd
      match r.Err with
      | some e =>
        -- line 90 returns what `err` holds by then: the writer's store if it has landed
        { id := name, state := state,
          err := (match h.WriterStore with
            | some w => w
            | none => some e),
          events := [Event.Exec cmd,
            Event.Logf Severity.Error
              ("Error creating k3d cluster: " ++ h.Quote (h.Strip r.Combined))] }
      | none =>
        let cmd2 := kubeconfigCmd name
        let r2 := h.Run cmd2
        match r2.Err with
        | some e =>
          { id := name, state := state, err := some e,
            events := [Event.Exec cmd, Event.Exec cmd2] }
        | none =>
          { id := name, state := { state with KubeConfig := r2.Stdout }, err := none,
            events := [Event.Exec cmd, Event.Exec cmd2] }

/-- The result of `Delete`, with the side effects it caused, in order. -/
structure DeleteResult where
  err : error
  events : List Event
  deriving DecidableEq, Repr

/-- The method `Cluster.Delete`. -/
def Delete (h : Host) (_id : String) (props : ClusterState) : DeleteResult :=
  let cmd := deleteCmd props.Name
  let r := h.Run cmd
  match r.Err with
  | some e =>
    { err := some e,
      events := [Event.Exec cmd,
        Event.Logf Severity.Error
          ("Error deleting k3d cluster: " ++ h.Quote (h.Strip r.Combined))] }
  | none => { err := none, events := [Event.Exec cmd] }

/-- The commands run, in order. -/
def execs : List Event → List Cmd
  | [] => []
  | Event.Exec c :: es => c :: execs es
  | Event.Logf _ _ :: es => execs es

/-- The messages logged, in order, each with its severity. -/
def logs : List Event → List (Severity × String)
  | [] => []
  | Event.Exec _ :: es => logs es
  | Event.Logf s m :: es => (s, m) :: logs es

/-! ## `Cluster.Check` -/

/-- A value of a raw property map (`resource.PropertyValue`).  Assets, archives,
outputs and resource references are left out: the provider neither builds nor
inspects them. -/
inductive PropertyValue where
  | null
  | bool (b : Bool)
  /-- A number, carried as the bit pattern of its float64. -/
  | number (bits : Nat)
  | str (s : String)
  | array (vs : List PropertyValue)
  | object (kvs : List (String × PropertyValue))
  | computed
  | secret (v : PropertyValue)

/-- The constructor `resource.NewStringProperty`. -/
def NewStringProperty (s : String) : PropertyValue := PropertyValue.str s

/-- A raw property map (`resource.PropertyMap`), seen through its lookups: `m k` is
`none` when the key is absent. -/
abbrev PropertyMap := String → Option PropertyValue

/-- The assignment `m[k] = v` of a Go map. -/
def PropertyMap.set (m : PropertyMap) (k : String) (v : PropertyValue) : PropertyMap :=
  fun k1 => if k1 = k then some v else m k1

/-- The empty map `{}`. -/
def PropertyMap.empty : PropertyMap := fun _ => none

/-- A field-level validation failure (`p.CheckFailure`). -/
structure CheckFailure where
  Property : String
  Reason : String
  deriving DecidableEq, Repr

/-- The three results of `infer.DefaultCheck[ClusterArgs]`. -/
structure CheckResult where
  args : ClusterArgs
  failures : List CheckFailure
  err : error
  deriving DecidableEq, Repr

/-- The method `Cluster.Check`.  The Go code updates `newInputs`, a map the engine
has allocated, in place, so the updated map is returned next to the results.
`DefaultCheck` stands for `infer.DefaultCheck[ClusterArgs]`. -/
def Check (DefaultCheck : PropertyMap → CheckResult) (name : String)
    (_oldInputs newInputs : PropertyMap) : PropertyMap × CheckResult :=
  let newInputs : PropertyMap :=
    if (newInputs "name").isSome then newInputs
    else newInputs.set "name" (NewStringProperty name)
  let newInputs : PropertyMap :=
    if (newInputs "config").isSome then newInputs
    else newInputs.set "config" (NewStringProperty (defaultConfig name))
  (newInputs, DefaultCheck newInputs)

/-! ## Models of the library functions

These are used to evaluate concrete scenarios.  A theorem about the provider that
needs one of them says so by a hypothesis such as `h.Strip = Strip`. -/

/-- Decoding of one optional string field of `ClusterArgs` (struct tag
`pulumi:"<key>,optional"`): an absent key gives the zero value, a string gives
itself, anything else is reported against the property. -/
def decodeField (m : PropertyMap) (key : String) : String × List CheckFailure :=
  match m key with
  | none => ("", [])
  | some (PropertyValue.str s) => (s, [])
  | some _ => ("", [{ Property := key, Reason := "expected a string" }])

/-- A model of `infer.DefaultCheck[ClusterArgs]`, read off the struct tags of
`ClusterArgs`.  It is exact on maps whose `name`, `version` and `config` entries are
absent or strings, which is all the scenarios use. -/
def DefaultCheck (m : PropertyMap) : CheckResult :=
  let n := decodeField m "name"
  let v := decodeField m "version"
  let c := decodeField m "config"
  { args := { Name := n.1, Version := v.1, Config := c.1 },
    failures := n.2 ++ v.2 ++ c.2, err := none }

/-! ### `stripansi.Strip`

The library is one regular expression and one call:

    const ansi = "[\u001B\u009B][[\\]()#;?]*(?:(?:(?:[a-zA-Z\\d]*(?:;[a-zA-Z\\d]*)*)?\u0007)|(?:(?:\\d{1,4}(?:;\\d{0,4})*)?[\\dA-PRZcf-ntqry=><~]))"
    func Strip(str string) string { return re.ReplaceAllString(str, "") }

The model below is a backtracking matcher with Go's leftmost-first preference
(greedy repetition, alternatives tried left to right) over the syntax tree of
that expression. -/

/-- Regular expressions, as far as `ansi` needs them. -/
inductive Re where
  /-- A character class, as a list of inclusive code point ranges. -/
  | cls (ranges : List (Nat × Nat))
  | seq (a b : Re)
  | alt (a b : Re)
  /-- Greedy `a?`. -/
  | opt (a : Re)
  /-- Greedy `a*`. -/
  | star (a : Re)

/-- Membership of a character in a class. -/
def inClass (ranges : List (Nat × Nat)) (c : Char) : Bool :=
  ranges.any (fun r => decide (r.1 ≤ c.toNat) && decide (c.toNat ≤ r.2))

/-- What remains to be matched after a piece of the expression: it receives the rest
of the input and answers with the input left after the whole match, if any. -/
abbrev Cont := List Char → Option (List Char)

/-- Greedy iteration of `step`: one more round first, stopping second.  A round
that consumes nothing is not repeated. -/
def starLoop (step : List Char → Cont → Option (List Char)) :
    Nat → List Char → Cont → Option (List Char)
  | 0, s, k => k s
  | fuel + 1, s, k =>
    (step s (fun s1 =>
      if s1.length < s.length then starLoop step fuel s1 k else none)).orElse
      (fun _ => k s)

/-- Match `re` at the start of the input, then continue with `k`; the first
success in preference order wins. -/
def Re.run : Re → List Char → Cont → Option (List Char)
  | Re.cls rs, s, k =>
    match s with
    | c :: t => if inClass rs c then k t else none
    | [] => none
  | Re.seq a b, s, k => a.run s (fun s1 => b.run s1 k)
  | Re.alt a b, s, k => (a.run s k).orElse (fun _ => b.run s k)
  | Re.opt a, s, k => (a.run s k).orElse (fun _ => k s)
  | Re.star a, s, k => starLoop (fun s1 k1 => a.run s1 k1) s.length s k

/-- The class of a single character. -/
def chr (c : Char) : Re := Re.cls [(c.toNat, c.toNat)]

/-- The class `\d`. -/
def digit : Re := Re.cls [(48, 57)]

/-- The class `[a-zA-Z\d]`. -/
def alnum : Re := Re.cls [(97, 122), (65, 90), (48, 57)]

/-- The repetition `\d{1,4}`, that is `\d(\d(\d(\d)?)?)?`. -/
def digits14 : Re :=
  Re.seq digit (Re.opt (Re.seq digit (Re.opt (Re.seq digit (Re.opt digit)))))

/-- The class `[[\]()#;?]`. -/
def introClass : Re :=
  Re.cls [(91, 91), (93, 93), (40, 40), (41, 41), (35, 35), (59, 59), (63, 63)]

/-- The class `[\dA-PRZcf-ntqry=><~]`. -/
def finalClass : Re :=
  Re.cls [(48, 57), (65, 80), (82, 82), (90, 90), (99, 99), (102, 110), (116, 116),
    (113, 113), (114, 114), (121, 121), (61, 61), (62, 62), (60, 60), (126, 126)]

/-- The expression `ansi`. -/
def ansi : Re :=
  Re.seq (Re.cls [(0x1B, 0x1B), (0x9B, 0x9B)])
    (Re.seq (Re.star introClass)
      (Re.alt
        (Re.seq
          (Re.opt (Re.seq (Re.star alnum) (Re.star (Re.seq (chr ';') (Re.star alnum)))))
          (chr '\x07'))
        (Re.seq
          (Re.opt (Re.seq digits14 (Re.star (Re.seq (chr ';') (Re.opt digits14)))))
          finalClass)))

/-- The call `re.ReplaceAllString(s, "")`: scanning from the left, every match is
dropped and every character at which no match starts is kept.  (A match of `ansi`
is never empty; an empty match would keep the character as well.) -/
def replaceAllEmpty (re : Re) : Nat → List Char → List Char
  | 0, s => s
  | _ + 1, [] => []
  | fuel + 1, c :: t =>
    match re.run (c :: t) some with
    | some rest =>
      if rest.length < (c :: t).length then replaceAllEmpty re fuel rest
      else c :: replaceAllEmpty re fuel t
    | none => c :: replaceAllEmpty re fuel t

/-- A model of `stripansi.Strip`. -/
def Strip (str : String) : String :=
  ⟨replaceAllEmpty ansi str.length str.data⟩

/-! ### The verb `%q`

For a string operand without flags `%q` is `strconv.Quote`. -/

/-- The function `strconv.IsPrint`.  Up to U+00FF it is decided by comparisons, as
in the Go source; above, Go looks the rune up in generated tables, which are the
argument `wide` here. -/
def IsPrint (wide : Nat → Bool) (r : Nat) : Bool :=
  if r ≤ 0xFF then
    if 0x20 ≤ r ∧ r ≤ 0x7E then true
    else if 0xA1 ≤ r ∧ r ≤ 0xFF then r != 0xAD
    else false
  else wide r

/-- The digit of `lowerhex` for the four bits of `r` that start at bit `shift`. -/
def hexDigit (r shift : Nat) : Char :=
  Nat.digitChar ((r >>> shift) % 16)

/-- The function `appendEscapedRune` for the double quote, without the ASCII-only
and graphic-only options: the characters one rune of the operand is written as. -/
def escapedRune (wide : Nat → Bool) (r : Char) : List Char :=
  if r = '"' ∨ r = '\\' then ['\\', r]
  else if IsPrint wide r.toNat then [r]
  else if r = '\x07' then ['\\', 'a']
  else if r = '\x08' then ['\\', 'b']
  else if r = '\x0c' then ['\\', 'f']
  else if r = '\n' then ['\\', 'n']
  else if r = '\r' then ['\\', 'r']
  else if r = '\t' then ['\\', 't']
  else if r = '\x0b' then ['\\', 'v']
  else if r.toNat < 0x20 ∨ r.toNat = 0x7F then
    ['\\', 'x', hexDigit r.toNat 4, hexDigit r.toNat 0]
  else if r.toNat < 0x10000 then
    ['\\', 'u', hexDigit r.toNat 12, hexDigit r.toNat 8, hexDigit r.toNat 4,
      hexDigit r.toNat 0]
  else
    ['\\', 'U', hexDigit r.toNat 28, hexDigit r.toNat 24, hexDigit r.toNat 20,
      hexDigit r.toNat 16, hexDigit r.toNat 12, hexDigit r.toNat 8, hexDigit r.toNat 4,
      hexDigit r.toNat 0]

/-- A model of `strconv.Quote`. -/
def Quote (wide : Nat → Bool) (s : String) : String :=
  ⟨'"' :: (s.data.flatMap (escapedRune wide) ++ ['"'])⟩

/-- The relation `Stripped re s t`: `t` is what a scan of `s` from the left leaves when
every match of `re` it meets is cut out and every character at which no match
starts is kept. -/
inductive Stripped (re : Re) : List Char → List Char → Prop where
  | nil : Stripped re [] []
  /-- No match that consumes anything starts at `c`, so `c` is kept. -/
  | keep (c : Char) (s t : List Char) :
      (∀ rest, re.run (c :: s) some = some rest → (c :: s).length ≤ rest.length) →
      Stripped re s t → Stripped re (c :: s) (c :: t)
  /-- A match starts here and leaves `rest`: it is cut out. -/
  | cut (s rest t : List Char) :
      re.run s some = some rest → rest.length < s.length →
      Stripped re rest t → Stripped re s t

/-- A continuation that only ever answers with a suffix of what it was given. -/
def Cont.Shrinks (k : Cont) : Prop := ∀ s r, k s = some r → r <:+ s

/-- The two characters that can open an escape sequence: ESC and CSI. -/
def isEscapeIntro (c : Char) : Bool := c.toNat == 0x1B || c.toNat == 0x9B

/-- A match of `ansi` starts at some position of `s`. -/
def hasEscapeSequence (s : List Char) : Prop :=
  ∃ i, (ansi.run (s.drop i) some).isSome = true

/-! ## Scenario helpers -/

/-- A stub of the collaborators: the pipe is created, `k3d kubeconfig get name`
ends as `get` says and every other command ends as `create` says, and the writer's
store lands before the create call returns; the library functions are the models
above (the table of printable runes above U+00FF is taken empty, the scenarios being
ASCII). -/
def stubHost (name : String) (create get : ProcResult) : Host :=
  { StdinPipe := none,
    Run := fun cmd => if cmd = kubeconfigCmd name then get else create,
    WriterStore := none,
    Strip := Strip,
    Quote := Quote (fun _ => false) }

/-- A run that ends with status 0 and the given standard output. -/
def exitOk (out : String) : ProcResult :=
  { Stdout := out, Combined := out, Err := none }

/-- A run that ends with status 1 and the given combined output. -/
def exitOne (combined : String) : ProcResult :=
  { Stdout := "", Combined := combined, Err := some (GoError.ExitError 1) }

/-- The spec that `Check` yields for the desired state `{}` and logical name `demo`. -/
def demoSpec : ClusterArgs :=
  (Check DefaultCheck "demo" PropertyMap.empty PropertyMap.empty).2.args

/-- The desired state `{name: "custom"}`. -/
def customInputs : PropertyMap :=
  PropertyMap.empty.set "name" (NewStringProperty "custom")

/-- The spec that `Check` yields for the desired state `{name: "custom"}` and
logical name `demo`. -/
def customSpec : ClusterArgs :=
  (Check DefaultCheck "demo" PropertyMap.empty customInputs).2.args

/-- The combined output of scenario B: `boom` in red. -/
def redBoom : String := "\x1b[31mboom\x1b[0m"

/-- The error of starting a program that is not on the search path. -/
def notFoundError : GoError :=
  GoError.Error "exec: \"k3d\": executable file not found in $PATH"

/-- The error of a write to a pipe that has been closed. -/
def closedPipeError : GoError :=
  GoError.PathError "write |1: file already closed"

/-- A host on which `k3d` cannot be started, the writer finds its pipe closed, and the
writer's store lands after the create call has returned. -/
def lateStoreHost : Host :=
  { StdinPipe := none,
    Run := fun _ => { Stdout := "", Combined := "", Err := some notFoundError },
    WriterStore := some (some closedPipeError),
    Strip := Strip,
    Quote := Quote (fun _ => false) }

/-- The number of positions of `s` at which `pat` occurs. -/
def occurrences (pat s : String) : Nat :=
  (List.range (s.length + 1)).countP (fun i => pat.data.isPrefixOf (s.data.drop i))

/-! ## The four ways a real `Create` ends -/

/-- The pipe cannot be created: nothing is started. -/
theorem Create_of_pipe_error (h : Host) (n : String) (s : ClusterArgs) (e : GoError)
    (hp : h.StdinPipe = some e) :
    Create h n s false =
      { id := n, state := { toClusterArgs := s, KubeConfig := "" }, err := some e,
        events := [] } := by
  simp [Create, hp]

/-- The create call ends with an error: it is logged, and what `err` holds on line 90
is returned. -/
theorem Create_of_create_error (h : Host) (n : String) (s : ClusterArgs) (e : GoError)
    (hp : h.StdinPipe = none)
    (hc : (h.Run (createCmd n (stdinConfig n s))).Err = some e) :
    Create h n s false =
      { id := n, state := { toClusterArgs := s, KubeConfig := "" },
        err := (match h.WriterStore with
          | some w => w
          | none => some e),
        events := [Event.Exec (createCmd n (stdinConfig n s)),
          Event.Logf Severity.Error
            ("Error creating k3d cluster: " ++
              h.Quote (h.Strip (h.Run (createCmd n (stdinConfig n s))).Combined))] } := by
  simp [Create, hp, hc]

/-- The create call succeeds and the credential call ends with an error. -/
theorem Create_of_fetch_error (h : Host) (n : String) (s : ClusterArgs) (e : GoError)
    (hp : h.StdinPipe = none)
    (hc : (h.Run (createCmd n (stdinConfig n s))).Err = none)
    (hk : (h.Run (kubeconfigCmd n)).Err = some e) :
    Create h n s false =
      { id := n, state := { toClusterArgs := s, KubeConfig := "" }, err := some e,
        events := [Event.Exec (createCmd n (stdinConfig n s)),
          Event.Exec (kubeconfigCmd n)] } := by
  simp [Create, hp, hc, hk]

/-- Both calls succeed. -/
theorem Create_of_success (h : Host) (n : String) (s : ClusterArgs)
    (hp : h.StdinPipe = none)
    (hc : (h.Run (createCmd n (stdinConfig n s))).Err = none)
    (hk : (h.Run (kubeconfigCmd n)).Err = none) :
    Create h n s false =
      { id := n,
        state := { toClusterArgs := s, KubeConfig := (h.Run (kubeconfigCmd n)).Stdout },
        err := none,
        events := [Event.Exec (createCmd n (stdinConfig n s)),
          Event.Exec (kubeconfigCmd n)] } := by
  simp [Create, hp, hc, hk]

/-! ## The two ways `Delete` ends -/

/-- The delete call ends with an error: it is logged and returned. -/
theorem Delete_of_error (h : Host) (id : String) (st : ClusterState) (e : GoError)
    (hr : (h.Run (deleteCmd st.Name)).Err = some e) :
    Delete h id st =
      { err := some e,
        events := [Event.Exec (deleteCmd st.Name),
          Event.Logf Severity.Error
            ("Error deleting k3d cluster: " ++
              h.Quote (h.Strip (h.Run (deleteCmd st.Name)).Combined))] } := by
  simp [Delete, hr]

/-- The delete call succeeds. -/
theorem Delete_of_success (h : Host) (id : String) (st : ClusterState)
    (hr : (h.Run (deleteCmd st.Name)).Err = none) :
    Delete h id st = { err := none, events := [Event.Exec (deleteCmd st.Name)] } := by
  simp [Delete, hr]

/-- Whatever the outcome, `Delete` runs the delete command and nothing else. -/
theorem execs_Delete (h : Host) (id : String) (st : ClusterState) :
    execs (Delete h id st).events = [deleteCmd st.Name] := by
  cases hr : (h.Run (deleteCmd st.Name)).Err with
  | none => rw [Delete_of_success h id st hr]; rfl
  | some e => rw [Delete_of_error h id st e hr]; rfl

/-! ## Occurrences of the name in the default config -/

/-- An occurrence of `N` inside `P ++ N ++ S` starts where `P` ends, as soon as `N`
has an element that neither `P` nor `S` has. -/
theorem occurrence_position {α : Type} [DecidableEq α] (P N S : List α) (c : α)
    (hc : c ∈ N) (hP : c ∉ P) (hS : c ∉ S) (i : Nat)
    (h : N <+: (P ++ N ++ S).drop i) : i = P.length := by
  obtain ⟨B, hB⟩ := h
  have hi : i ≤ (P ++ N ++ S).length := by
    by_contra hlt
    have hnil : (P ++ N ++ S).drop i = [] := List.drop_eq_nil_of_le (by omega)
    rw [hnil] at hB
    have hN : N = [] := (List.append_eq_nil.mp hB).1
    simp [hN] at hc
  have hA : (P ++ N ++ S).take i ++ (N ++ B) = P ++ (N ++ S) := by
    rw [hB, List.take_append_drop, List.append_assoc]
  have hlen : ((P ++ N ++ S).take i).length = i := by
    simp [List.length_take]; simpa using hi
  have hcount := congrArg (List.count c) hA
  simp only [List.count_append] at hcount
  have h0P : List.count c P = 0 := List.count_eq_zero_of_not_mem hP
  have h0S : List.count c S = 0 := List.count_eq_zero_of_not_mem hS
  have hcA : c ∉ (P ++ N ++ S).take i := by
    intro hmem
    have hpos : 0 < List.count c ((P ++ N ++ S).take i) := List.count_pos_iff.mpr hmem
    omega
  have hidx := congrArg (List.indexOf c) hA
  rw [List.indexOf_append_of_not_mem hcA, List.indexOf_append_of_not_mem hP,
    List.indexOf_append_of_mem hc, List.indexOf_append_of_mem hc, hlen] at hidx
  omega

/-- The characters of the default config: the head, the name, the tail. -/
theorem defaultConfig_data (n : String) :
    (defaultConfig n).data = configHead.data ++ n.data ++ configTail.data := by
  simp [defaultConfig]

/-- A name with a character foreign to the template occurs once in its config. -/
theorem occurrences_eq_one (n : String) (c : Char) (hc : c ∈ n.data)
    (hP : c ∉ configHead.data) (hS : c ∉ configTail.data) :
    occurrences n (defaultConfig n) = 1 := by
  unfold occurrences
  have hcongr : ∀ i ∈ List.range ((defaultConfig n).length + 1),
      (n.data.isPrefixOf ((defaultConfig n).data.drop i) = true ↔
        (i == configHead.data.length) = true) := by
    intro i _
    rw [List.isPrefixOf_iff_prefix, defaultConfig_data]
    constructor
    · intro h
      simpa using occurrence_position _ _ _ c hc hP hS i h
    · intro h
      have hi : i = configHead.data.length := by simpa using h
      subst hi
      rw [List.append_assoc, List.drop_left]
      exact List.prefix_append _ _
  rw [List.countP_congr hcongr]
  have hone : List.count configHead.data.length
      (List.range ((defaultConfig n).length + 1)) = 1 := by
    apply List.count_eq_one_of_mem (List.nodup_range _)
    rw [List.mem_range, String.length, defaultConfig_data]
    simp
    omega
  simpa [List.count] using hone

/-- The name occurs in its config right after the head. -/
theorem occurs_after_head (n : String) :
    n.data.isPrefixOf ((defaultConfig n).data.drop configHead.length) = true := by
  rw [List.isPrefixOf_iff_prefix, defaultConfig_data, List.append_assoc]
  have hlen : configHead.length = configHead.data.length := rfl
  rw [hlen, List.drop_left]
  exact List.prefix_append _ _

/-! ## Properties of the library models -/

theorem orElse_some {α : Type} (a b : Option α) (r : α)
    (h : a.orElse (fun _ => b) = some r) : a = some r ∨ b = some r := by
  cases a with
  | none => right; simpa [Option.orElse] using h
  | some x => left; simpa [Option.orElse] using h

theorem starLoop_suffix (step : List Char → Cont → Option (List Char))
    (hstep : ∀ s k r, Cont.Shrinks k → step s k = some r → r <:+ s) :
    ∀ (fuel : Nat) (s : List Char) (k : Cont) (r : List Char),
      Cont.Shrinks k → starLoop step fuel s k = some r → r <:+ s := by
  intro fuel
  induction fuel with
  | zero =>
    intro s k r hk h
    exact hk s r (by simpa [starLoop] using h)
  | succ fuel ih =>
    intro s k r hk h
    rw [starLoop] at h
    rcases orElse_some _ _ _ h with h1 | h1
    · refine hstep s _ r ?_ h1
      intro s1 r1 hr1
      beta_reduce at hr1
      by_cases hlt : s1.length < s.length
      · rw [if_pos hlt] at hr1
        exact ih s1 k r1 hk hr1
      · rw [if_neg hlt] at hr1
        cases hr1
    · exact hk s r h1

theorem Re.run_suffix (re : Re) :
    ∀ (s : List Char) (k : Cont) (r : List Char),
      Cont.Shrinks k → re.run s k = some r → r <:+ s := by
  induction re with
  | cls rs =>
    intro s k r hk h
    cases s with
    | nil => simp [Re.run] at h
    | cons c t =>
      by_cases hin : inClass rs c = true
      · simp [Re.run, hin] at h
        exact (hk t r h).trans (List.suffix_cons c t)
      · simp [Re.run, hin] at h
  | seq a b iha ihb =>
    intro s k r hk h
    rw [Re.run] at h
    exact iha s _ r (fun s1 r1 h1 => ihb s1 k r1 hk h1) h
  | alt a b iha ihb =>
    intro s k r hk h
    rw [Re.run] at h
    rcases orElse_some _ _ _ h with h1 | h1
    · exact iha s k r hk h1
    · exact ihb s k r hk h1
  | opt a iha =>
    intro s k r hk h
    rw [Re.run] at h
    rcases orElse_some _ _ _ h with h1 | h1
    · exact iha s k r hk h1
    · exact hk s r h1
  | star a iha =>
    intro s k r hk h
    rw [Re.run] at h
    exact starLoop_suffix _ (fun s1 k1 r1 hk1 h1 => iha s1 k1 r1 hk1 h1) _ s k r hk h

theorem replaceAllEmpty_sublist (re : Re) :
    ∀ (fuel : Nat) (s : List Char), (replaceAllEmpty re fuel s).Sublist s := by
  intro fuel
  induction fuel with
  | zero => intro s; simp [replaceAllEmpty]
  | succ fuel ih =>
    intro s
    cases s with
    | nil => simp [replaceAllEmpty]
    | cons c t =>
      rw [replaceAllEmpty]
      cases hm : re.run (c :: t) some with
      | none => exact (ih t).cons₂ c
      | some rest =>
        simp only
        by_cases hlt : rest.length < (c :: t).length
        · rw [if_pos hlt]
          have hsuf : rest <:+ c :: t :=
            Re.run_suffix re (c :: t) some rest (fun s r h => by cases h; exact List.suffix_refl _) hm
          exact (ih rest).trans hsuf.sublist
        · rw [if_neg hlt]
          exact (ih t).cons₂ c

theorem Strip_sublist (o : String) : (Strip o).data.Sublist o.data :=
  replaceAllEmpty_sublist ansi o.length o.data


/-- With enough fuel, `replaceAllEmpty` is the scan that `Stripped` describes. -/
theorem replaceAllEmpty_stripped (re : Re) :
    ∀ (fuel : Nat) (s : List Char), s.length ≤ fuel →
      Stripped re s (replaceAllEmpty re fuel s) := by
  intro fuel
  induction fuel with
  | zero =>
    intro s hs
    have hnil : s = [] := List.length_eq_zero.mp (Nat.le_zero.mp hs)
    subst hnil
    exact Stripped.nil
  | succ fuel ih =>
    intro s hs
    cases s with
    | nil => exact Stripped.nil
    | cons c t =>
      have ht : t.length ≤ fuel := by simpa using hs
      rw [replaceAllEmpty]
      cases hm : re.run (c :: t) some with
      | none =>
        exact Stripped.keep c t _ (fun rest hr => by rw [hm] at hr; cases hr) (ih t ht)
      | some rest =>
        simp only
        by_cases hlt : rest.length < (c :: t).length
        · rw [if_pos hlt]
          exact Stripped.cut (c :: t) rest _ hm hlt (ih rest (by omega))
        · rw [if_neg hlt]
          refine Stripped.keep c t _ (fun rest2 hr => ?_) (ih t ht)
          rw [hm] at hr
          cases hr
          omega

/-- The function `Strip` is the scan for `ansi`. -/
theorem Strip_stripped (o : String) : Stripped ansi o.data (Strip o).data :=
  replaceAllEmpty_stripped ansi o.length o.data (Nat.le_refl _)

theorem ansi_starts_with_intro (s : List Char) (k : Cont) (r : List Char)
    (h : ansi.run s k = some r) : ∃ c t, s = c :: t ∧ isEscapeIntro c = true := by
  cases s with
  | nil => simp [ansi, Re.run] at h
  | cons c t =>
    refine ⟨c, t, rfl, ?_⟩
    by_contra hc
    have hin : inClass [(0x1B, 0x1B), (0x9B, 0x9B)] c = false := by
      simp only [isEscapeIntro, Bool.or_eq_true, beq_iff_eq, not_or] at hc
      simp only [inClass, List.any_cons, List.any_nil, Bool.or_false, Bool.or_eq_false_iff,
        Bool.and_eq_false_iff, decide_eq_false_iff_not]
      omega
    rw [ansi, Re.run, Re.run, hin] at h
    simp at h

theorem no_intro_no_escape (s : List Char) (h : ∀ c ∈ s, isEscapeIntro c = false) :
    ¬ hasEscapeSequence s := by
  rintro ⟨i, hi⟩
  cases hr : ansi.run (s.drop i) some with
  | none => simp [hr] at hi
  | some r =>
    obtain ⟨c, t, hct, hc⟩ := ansi_starts_with_intro _ _ _ hr
    have hmem : c ∈ s := List.mem_of_mem_drop (by rw [hct]; exact List.mem_cons_self c t)
    rw [h c hmem] at hc
    cases hc

/-- A scan for `ansi` changes nothing in a text without ESC and CSI. -/
theorem stripped_plain (s t : List Char) (h : Stripped ansi s t)
    (hs : ∀ c ∈ s, isEscapeIntro c = false) : t = s := by
  induction h with
  | nil => rfl
  | keep c s t _ _ ih =>
    rw [ih (fun x hx => hs x (List.mem_cons_of_mem c hx))]
  | cut s rest t hm _ _ _ =>
    obtain ⟨c, u, hcu, hc⟩ := ansi_starts_with_intro _ _ _ hm
    rw [hs c (by rw [hcu]; exact List.mem_cons_self c u)] at hc
    cases hc

/-- The function `Strip` returns a text without ESC and CSI as it is. -/
theorem Strip_plain (o : String) (ho : ∀ c ∈ o.data, isEscapeIntro c = false) :
    Strip o = o := by
  have hd : (Strip o).data = o.data := stripped_plain _ _ (Strip_stripped o) ho
  exact String.ext hd

theorem hexDigit_not_intro (r shift : Nat) : isEscapeIntro (hexDigit r shift) = false := by
  have key : ∀ k, k < 16 → isEscapeIntro (Nat.digitChar k) = false := by decide
  exact key _ (Nat.mod_lt _ (by norm_num))

theorem IsPrint_not_intro (wide : Nat → Bool) (c : Char)
    (h : IsPrint wide c.toNat = true) : isEscapeIntro c = false := by
  by_contra hc
  simp only [isEscapeIntro, Bool.not_eq_false, Bool.or_eq_true, beq_iff_eq] at hc
  rcases hc with hc | hc <;> rw [hc] at h <;> simp [IsPrint] at h

theorem mem_ite_or {p : Prop} [Decidable p] {a b : List Char} {c : Char}
    (h : c ∈ if p then a else b) : c ∈ a ∨ c ∈ b := by
  by_cases hp : p
  · rw [if_pos hp] at h; exact Or.inl h
  · rw [if_neg hp] at h; exact Or.inr h

theorem escapedRune_no_intro (wide : Nat → Bool) (r : Char) :
    ∀ c ∈ escapedRune wide r, isEscapeIntro c = false := by
  intro c hc
  unfold escapedRune at hc
  by_cases h1 : r = '"' ∨ r = '\\'
  · rw [if_pos h1] at hc
    rcases List.mem_pair.mp hc with rfl | rfl
    · rfl
    · rcases h1 with rfl | rfl <;> rfl
  rw [if_neg h1] at hc
  by_cases h2 : IsPrint wide r.toNat = true
  · rw [if_pos h2] at hc
    rw [List.mem_singleton] at hc
    subst hc
    exact IsPrint_not_intro wide _ h2
  rw [if_neg h2] at hc
  rcases mem_ite_or hc with hc | hc
  · rcases List.mem_pair.mp hc with rfl | rfl <;> rfl
  rcases mem_ite_or hc with hc | hc
  · rcases List.mem_pair.mp hc with rfl | rfl <;> rfl
  rcases mem_ite_or hc with hc | hc
  · rcases List.mem_pair.mp hc with rfl | rfl <;> rfl
  rcases mem_ite_or hc with hc | hc
  · rcases List.mem_pair.mp hc with rfl | rfl <;> rfl
  rcases mem_ite_or hc with hc | hc
  · rcases List.mem_pair.mp hc with rfl | rfl <;> rfl
  rcases mem_ite_or hc with hc | hc
  · rcases List.mem_pair.mp hc with rfl | rfl <;> rfl
  rcases mem_ite_or hc with hc | hc
  · rcases List.mem_pair.mp hc with rfl | rfl <;> rfl
  have hex := hexDigit_not_intro r.toNat
  rcases mem_ite_or hc with hc | hc
  · simp only [List.mem_cons, List.mem_singleton, List.not_mem_nil, or_false] at hc
    rcases hc with rfl | rfl | rfl | rfl <;> first | rfl | exact hex _
  rcases mem_ite_or hc with hc | hc
  · simp only [List.mem_cons, List.mem_singleton, List.not_mem_nil, or_false] at hc
    rcases hc with rfl | rfl | rfl | rfl | rfl | rfl <;> first | rfl | exact hex _
  · simp only [List.mem_cons, List.mem_singleton, List.not_mem_nil, or_false] at hc
    rcases hc with rfl | rfl | rfl | rfl | rfl | rfl | rfl | rfl | rfl | rfl <;>
      first | rfl | exact hex _

theorem Quote_no_intro (wide : Nat → Bool) (s : String) :
    ∀ c ∈ (Quote wide s).data, isEscapeIntro c = false := by
  intro c hc
  simp only [Quote, List.mem_cons, List.mem_append, List.mem_flatMap, List.mem_singleton,
    List.not_mem_nil, or_false] at hc
  rcases hc with rfl | ⟨r, _, hr⟩ | rfl
  · rfl
  · exact escapedRune_no_intro wide r c hr
  · rfl

theorem escapedRune_keeps_printable (wide : Nat → Bool) (r : Char)
    (h : IsPrint wide r.toNat = true) : [r].Sublist (escapedRune wide r) := by
  unfold escapedRune
  by_cases h1 : r = '"' ∨ r = '\\'
  · rw [if_pos h1]
    exact (List.Sublist.refl [r]).cons _
  · rw [if_neg h1, if_pos h]

theorem Quote_keeps_printable (wide : Nat → Bool) (s : String) :
    (s.data.filter (fun c => IsPrint wide c.toNat)).Sublist (Quote wide s).data := by
  have key : ∀ l : List Char,
      (l.filter (fun c => IsPrint wide c.toNat)).Sublist (l.flatMap (escapedRune wide)) := by
    intro l
    induction l with
    | nil => simp
    | cons c t ih =>
      rw [List.flatMap_cons]
      by_cases hp : IsPrint wide c.toNat = true
      · have hf : (c :: t).filter (fun c => IsPrint wide c.toNat) =
            c :: t.filter (fun c => IsPrint wide c.toNat) := by
          simp [List.filter_cons, hp]
        rw [hf]
        exact (escapedRune_keeps_printable wide c hp).append ih
      · have hf : (c :: t).filter (fun c => IsPrint wide c.toNat) =
            t.filter (fun c => IsPrint wide c.toNat) := by
          simp [List.filter_cons, hp]
        rw [hf]
        exact ih.trans (List.sublist_append_right _ _)
  exact ((key s.data).trans (List.sublist_append_left _ _)).cons _

/-! ## Theorems -/

/-- C1: a preview `Create` starts no process and logs nothing, and returns the logical
name, a nil error and a state that carries the name, version and config of the spec
unchanged with an empty `KubeConfig`. -/
theorem create_preview (h : Host) (n : String) (s : ClusterArgs) :
    (Create h n s true).events = [] ∧
    (Create h n s true).id = n ∧
    (Create h n s true).err = none ∧
    (Create h n s true).state.Name = s.Name ∧
    (Create h n s true).state.Version = s.Version ∧
    (Create h n s true).state.Config = s.Config ∧
    (Create h n s true).state.KubeConfig = "" := by
  simp [Create]

/-- C2: on a map with neither `name` nor `config`, `Check` leaves `name` equal to the
logical name and `config` equal to `defaultConfig` of it, that config contains the
logical name as a substring, every other key is as before, and the decoder is run on
the updated map. -/
theorem check_fills_defaults (dc : PropertyMap → CheckResult) (n : String)
    (old m : PropertyMap) (hn : m "name" = none) (hc : m "config" = none) :
    (Check dc n old m).1 "name" = some (NewStringProperty n) ∧
    (Check dc n old m).1 "config" = some (NewStringProperty (defaultConfig n)) ∧
    n.data <:+: (defaultConfig n).data ∧
    (∀ k, k ≠ "name" → k ≠ "config" → (Check dc n old m).1 k = m k) ∧
    (Check dc n old m).2 = dc (Check dc n old m).1 := by
  refine ⟨?_, ?_, ?_, ?_, ?_⟩
  · simp [Check, PropertyMap.set, hn, hc]
  · simp [Check, PropertyMap.set, hn, hc]
  · exact ⟨configHead.data, configTail.data, by simp [defaultConfig]⟩
  · intro k hk1 hk2
    simp [Check, PropertyMap.set, hn, hc, hk1, hk2]
  · simp [Check]

/-- The desired state `{}` under the logical name `demo`. -/
theorem check_fills_defaults_witness :
    (Check DefaultCheck "demo" PropertyMap.empty PropertyMap.empty).1 "name"
        = some (NewStringProperty "demo") ∧
    (Check DefaultCheck "demo" PropertyMap.empty PropertyMap.empty).1 "config"
        = some (NewStringProperty (defaultConfig "demo")) :=
  ⟨(check_fills_defaults DefaultCheck "demo" PropertyMap.empty PropertyMap.empty rfl rfl).1,
   (check_fills_defaults DefaultCheck "demo" PropertyMap.empty PropertyMap.empty rfl rfl).2.1⟩

/-- C3: when the pipe is created, the create call ends without error and the
credential call ends without error with standard output `c`, a real `Create` returns
the logical name, a nil error and a state made of the spec as given and
`KubeConfig = c`; for the spec that `Check` yields from `{}` under the logical name
`demo` and `c = "CRED"` the state is `demo`, no version, `defaultConfig "demo"`,
`CRED`. -/
theorem create_success (h : Host) (n : String) (s : ClusterArgs) (c : String)
    (hp : h.StdinPipe = none)
    (hc : (h.Run (createCmd n (stdinConfig n s))).Err = none)
    (hk : (h.Run (kubeconfigCmd n)).Err = none)
    (hs : (h.Run (kubeconfigCmd n)).Stdout = c) :
    (Create h n s false).id = n ∧
    (Create h n s false).err = none ∧
    (Create h n s false).state.KubeConfig = c ∧
    (Create h n s false).state.Name = s.Name ∧
    (Create h n s false).state.Version = s.Version ∧
    (Create h n s false).state.Config = s.Config ∧
    (n = "demo" → s = demoSpec → c = "CRED" →
      (Create h n s false).state =
        { Name := "demo", Version := "", Config := defaultConfig "demo",
          KubeConfig := "CRED" }) := by
  rw [Create_of_success h n s hp hc hk, hs]
  refine ⟨rfl, rfl, rfl, rfl, rfl, rfl, ?_⟩
  intro _ h2 h3
  subst h2 h3
  rfl

/-- Scenario A: the stub tool ends both calls with status 0 and answers the
credential call with `CRED`. -/
theorem create_success_witness :
    (Create (stubHost "demo" (exitOk "") (exitOk "CRED")) "demo" demoSpec false).state =
      { Name := "demo", Version := "", Config := defaultConfig "demo",
        KubeConfig := "CRED" } :=
  (create_success (stubHost "demo" (exitOk "") (exitOk "CRED")) "demo" demoSpec "CRED"
    rfl (by decide) (by decide) (by decide)).2.2.2.2.2.2 rfl rfl rfl

/-- C4 fails on the code: `k3d` cannot be started, so the create call fails with the
launch error; the writer finds its pipe closed and its store into `err` lands before
line 90 returns; `Create` then returns the writer's error, not the error of the create
call. -/
theorem create_failure_returns_write_error :
    lateStoreHost.StdinPipe = none ∧
    (lateStoreHost.Run (createCmd "demo" (stdinConfig "demo" demoSpec))).Err
      = some notFoundError ∧
    (Create lateStoreHost "demo" demoSpec false).err = some closedPipeError ∧
    (Create lateStoreHost "demo" demoSpec false).err ≠ some notFoundError := by
  decide

/-- C5, as the code has it: when the pipe is created, the create call succeeds and
the credential call ends with an error, a real `Create` returns that error, the
logical name and a state with an empty `KubeConfig`, having started both commands and
logged nothing; the identifier and state are the very ones it returns, for the same
name and spec, when the create call itself fails. -/
theorem create_partial_success (h : Host) (n : String) (s : ClusterArgs) (e : GoError)
    (hp : h.StdinPipe = none)
    (hc : (h.Run (createCmd n (stdinConfig n s))).Err = none)
    (hk : (h.Run (kubeconfigCmd n)).Err = some e) :
    (Create h n s false).err = some e ∧
    (Create h n s false).id = n ∧
    (Create h n s false).state = { toClusterArgs := s, KubeConfig := "" } ∧
    execs (Create h n s false).events =
      [createCmd n (stdinConfig n s), kubeconfigCmd n] ∧
    logs (Create h n s false).events = [] ∧
    (∀ (h2 : Host) (e2 : GoError), h2.StdinPipe = none →
      (h2.Run (createCmd n (stdinConfig n s))).Err = some e2 →
      (Create h2 n s false).id = (Create h n s false).id ∧
      (Create h2 n s false).state = (Create h n s false).state) := by
  rw [Create_of_fetch_error h n s e hp hc hk]
  refine ⟨rfl, rfl, rfl, rfl, rfl, ?_⟩
  intro h2 e2 hp2 hc2
  rw [Create_of_create_error h2 n s e2 hp2 hc2]
  exact ⟨rfl, rfl⟩

/-- The stub create call exits 0 and the stub credential call exits 1. -/
theorem create_partial_success_witness :
    (Create (stubHost "demo" (exitOk "") (exitOne "")) "demo" demoSpec false).err
        = some (GoError.ExitError 1) ∧
    logs (Create (stubHost "demo" (exitOk "") (exitOne "")) "demo" demoSpec false).events
        = [] :=
  ⟨(create_partial_success (stubHost "demo" (exitOk "") (exitOne "")) "demo" demoSpec
      (GoError.ExitError 1) rfl (by decide) (by decide)).1,
   (create_partial_success (stubHost "demo" (exitOk "") (exitOne "")) "demo" demoSpec
      (GoError.ExitError 1) rfl (by decide) (by decide)).2.2.2.2.1⟩

/-- C5 as stated fails: for the name `demo` and the spec of scenario A, the run in
which the create call succeeds and the credential call exits 1 returns the same
identifier and the same state as the run in which the create call exits 1. -/
theorem create_partial_success_same_pair :
    (stubHost "demo" (exitOk "") (exitOne "")).StdinPipe = none ∧
    ((stubHost "demo" (exitOk "") (exitOne "")).Run
      (createCmd "demo" (stdinConfig "demo" demoSpec))).Err = none ∧
    ((stubHost "demo" (exitOk "") (exitOne "")).Run (kubeconfigCmd "demo")).Err
      = some (GoError.ExitError 1) ∧
    (stubHost "demo" (exitOne "") (exitOk "CRED")).StdinPipe = none ∧
    ((stubHost "demo" (exitOne "") (exitOk "CRED")).Run
      (createCmd "demo" (stdinConfig "demo" demoSpec))).Err = some (GoError.ExitError 1) ∧
    ((Create (stubHost "demo" (exitOk "") (exitOne "")) "demo" demoSpec false).id,
        (Create (stubHost "demo" (exitOk "") (exitOne "")) "demo" demoSpec false).state)
      = ((Create (stubHost "demo" (exitOne "") (exitOk "CRED")) "demo" demoSpec false).id,
        (Create (stubHost "demo" (exitOne "") (exitOk "CRED")) "demo" demoSpec false).state) := by
  decide

/-- C6: `Delete` starts exactly one process, `k3d cluster delete` with the name held in
the state; it returns nil and logs nothing exactly when that call ends without error;
otherwise it returns the error of the call, and its only message, logged after the
call at error severity, is built from the stripped combined output. -/
theorem delete_contract (h : Host) (id : String) (st : ClusterState) :
    execs (Delete h id st).events = [deleteCmd st.Name] ∧
    (deleteCmd st.Name).Args = ["k3d", "cluster", "delete", st.Name] ∧
    (((Delete h id st).err = none ∧ logs (Delete h id st).events = []) ↔
      (h.Run (deleteCmd st.Name)).Err = none) ∧
    (∀ e, (h.Run (deleteCmd st.Name)).Err = some e →
      (Delete h id st).err = some e ∧
      (Delete h id st).events =
        [Event.Exec (deleteCmd st.Name),
          Event.Logf Severity.Error
            ("Error deleting k3d cluster: " ++
              h.Quote (h.Strip (h.Run (deleteCmd st.Name)).Combined))]) := by
  cases hr : (h.Run (deleteCmd st.Name)).Err with
  | none =>
    rw [Delete_of_success h id st hr]
    simp [execs, logs, deleteCmd]
  | some e =>
    rw [Delete_of_error h id st e hr]
    simp [execs, logs, deleteCmd]

/-- The stub delete call exits 1. -/
theorem delete_contract_witness :
    (Delete (stubHost "demo" (exitOne "no such cluster") (exitOk "")) "demo"
        { Name := "demo", Version := "", Config := "", KubeConfig := "" }).err
      = some (GoError.ExitError 1) :=
  ((delete_contract (stubHost "demo" (exitOne "no such cluster") (exitOk "")) "demo"
      { Name := "demo", Version := "", Config := "", KubeConfig := "" }).2.2.2
    (GoError.ExitError 1) (by decide)).1

/-- C8, as the code has it: `defaultConfig n` contains `n` as a substring, right after
the fixed head, so at least once; the occurrence is the only one whenever `n` has a
character that occurs nowhere in the fixed text of the template, and it is the only
one for `n = "demo"`. -/
theorem defaultConfig_contains_name (n : String) :
    n.data <:+: (defaultConfig n).data ∧
    n.data.isPrefixOf ((defaultConfig n).data.drop configHead.length) = true ∧
    1 ≤ occurrences n (defaultConfig n) ∧
    (∀ c, c ∈ n.data → c ∉ configHead.data → c ∉ configTail.data →
      occurrences n (defaultConfig n) = 1) ∧
    occurrences "demo" (defaultConfig "demo") = 1 := by
  refine ⟨⟨configHead.data, configTail.data, (defaultConfig_data n).symm⟩,
    occurs_after_head n, ?_, fun c hc hP hS => occurrences_eq_one n c hc hP hS, by decide⟩
  unfold occurrences
  apply List.countP_pos_iff.mpr
  refine ⟨configHead.length, ?_, occurs_after_head n⟩
  rw [List.mem_range]
  have hlen : configHead.length = configHead.data.length := rfl
  rw [hlen, String.length, defaultConfig_data]
  simp
  omega

/-- The name `k3d-test` has a hyphen, which the template has not. -/
theorem defaultConfig_contains_name_witness :
    occurrences "k3d-test" (defaultConfig "k3d-test") = 1 :=
  (defaultConfig_contains_name "k3d-test").2.2.2.1 '-' (by decide) (by decide) (by decide)

/-- C8 as stated fails: the name `a` occurs nine times in `defaultConfig "a"`, and the
name `name` twice in `defaultConfig "name"`. -/
theorem defaultConfig_name_repeated :
    occurrences "a" (defaultConfig "a") = 9 ∧
    occurrences "name" (defaultConfig "name") = 2 := by
  decide

/-- C7, as the code has it: when the pipe is created and the create call ends with an
error and combined output `o`, a real `Create` logs exactly one message, at error
severity: the text `Error creating k3d cluster: ` followed by the `%q` quoting of the
ANSI-stripped form of `o`.  With the library models for stripping and quoting: the
message holds no ESC and no CSI character, hence no escape sequence; the stripped
form is `o` with the escape sequences met in a scan from the left cut out and every
other character kept, in order, so an `o` without ESC and CSI is kept whole; every
printable character of the stripped form is in the message, in order; and for
`o = "\x1b[31mboom\x1b[0m"` the message is `Error creating k3d cluster: "boom"`. -/
theorem create_failure_log (h : Host) (n : String) (s : ClusterArgs) (e : GoError)
    (o : String)
    (hp : h.StdinPipe = none)
    (hc : (h.Run (createCmd n (stdinConfig n s))).Err = some e)
    (ho : (h.Run (createCmd n (stdinConfig n s))).Combined = o) :
    logs (Create h n s false).events =
      [(Severity.Error, "Error creating k3d cluster: " ++ h.Quote (h.Strip o))] ∧
    (∀ wide, h.Strip = Strip → h.Quote = Quote wide →
      (∀ c ∈ ("Error creating k3d cluster: " ++ h.Quote (h.Strip o)).data,
        isEscapeIntro c = false) ∧
      ¬ hasEscapeSequence ("Error creating k3d cluster: " ++ h.Quote (h.Strip o)).data ∧
      Stripped ansi o.data (h.Strip o).data ∧
      (h.Strip o).data.Sublist o.data ∧
      ((∀ c ∈ o.data, isEscapeIntro c = false) → h.Strip o = o) ∧
      ((h.Strip o).data.filter (fun c => IsPrint wide c.toNat)).Sublist
        ("Error creating k3d cluster: " ++ h.Quote (h.Strip o)).data ∧
      (o = redBoom →
        logs (Create h n s false).events =
          [(Severity.Error, "Error creating k3d cluster: \"boom\"")])) := by
  rw [Create_of_create_error h n s e hp hc, ho]
  refine ⟨rfl, ?_⟩
  intro wide hS hQ
  rw [hS, hQ]
  have hclean : ∀ c ∈ ("Error creating k3d cluster: " ++ Quote wide (Strip o)).data,
      isEscapeIntro c = false := by
    intro c hc
    rw [String.data_append, List.mem_append] at hc
    rcases hc with hc | hc
    · revert c
      decide
    · exact Quote_no_intro wide _ c hc
  refine ⟨hclean, no_intro_no_escape _ hclean, Strip_stripped o, Strip_sublist o,
    Strip_plain o, ?_, ?_⟩
  · rw [String.data_append]
    exact (Quote_keeps_printable wide _).trans (List.sublist_append_right _ _)
  · intro hred
    rw [hred]
    rfl

/-- Scenario B: the stub create call exits 1 with `boom` in red. -/
theorem create_failure_log_witness :
    logs (Create (stubHost "demo" (exitOne redBoom) (exitOk "CRED")) "demo" demoSpec
        false).events =
      [(Severity.Error, "Error creating k3d cluster: \"boom\"")] :=
  ((create_failure_log (stubHost "demo" (exitOne redBoom) (exitOk "CRED")) "demo" demoSpec
    (GoError.ExitError 1) redBoom rfl (by decide) (by decide)).2 (fun _ => false) rfl
    rfl).2.2.2.2.2.2 rfl

/-- C7 as stated fails: in scenario B the create call exits 1 with `boom` in red, whose
stripped form is `boom`, and the one message logged is
`Error creating k3d cluster: "boom"`, not `boom`. -/
theorem create_failure_log_not_bare :
    ((stubHost "demo" (exitOne redBoom) (exitOk "CRED")).Run
      (createCmd "demo" (stdinConfig "demo" demoSpec))).Err = some (GoError.ExitError 1) ∧
    Strip redBoom = "boom" ∧
    logs (Create (stubHost "demo" (exitOne redBoom) (exitOk "CRED")) "demo" demoSpec
        false).events =
      [(Severity.Error, "Error creating k3d cluster: \"boom\"")] ∧
    logs (Create (stubHost "demo" (exitOne redBoom) (exitOk "CRED")) "demo" demoSpec
        false).events ≠ [(Severity.Error, "boom")] := by
  decide

/-- C9, as the code has it: on a map without `config`, the config that `Check`
synthesizes is `defaultConfig` of the logical name; the `name` entry after `Check` is
the logical name when the map had none, and is the entry of the map, untouched, when
it had one. -/
theorem check_config_from_logical_name (dc : PropertyMap → CheckResult) (n : String)
    (old m : PropertyMap) (hc : m "config" = none) :
    (Check dc n old m).1 "config" = some (NewStringProperty (defaultConfig n)) ∧
    (m "name" = none → (Check dc n old m).1 "name" = some (NewStringProperty n)) ∧
    (∀ v, m "name" = some v → (Check dc n old m).1 "name" = some v) := by
  refine ⟨?_, ?_, ?_⟩
  · cases hn : m "name" <;> simp [Check, PropertyMap.set, hn, hc]
  · intro hn
    simp [Check, PropertyMap.set, hn, hc]
  · intro v hn
    simp [Check, PropertyMap.set, hn, hc]

/-- The desired state `{name: "custom"}` under the logical name `demo`. -/
theorem check_config_from_logical_name_witness :
    (Check DefaultCheck "demo" PropertyMap.empty customInputs).1 "config"
      = some (NewStringProperty (defaultConfig "demo")) :=
  (check_config_from_logical_name DefaultCheck "demo" PropertyMap.empty customInputs
    rfl).1

/-- C9 as stated fails: for the logical name `demo` and the desired state
`{name: "custom"}`, which has no `config`, the `name` entry after `Check` is `custom`
while the synthesized config is `defaultConfig "demo"`: it is not the config of
`custom`, and `custom` occurs nowhere in it. -/
theorem check_config_ignores_supplied_name :
    customInputs "config" = none ∧
    (Check DefaultCheck "demo" PropertyMap.empty customInputs).1 "name"
      = some (NewStringProperty "custom") ∧
    (Check DefaultCheck "demo" PropertyMap.empty customInputs).1 "config"
      = some (NewStringProperty (defaultConfig "demo")) ∧
    defaultConfig "demo" ≠ defaultConfig "custom" ∧
    occurrences "custom" (defaultConfig "demo") = 0 :=
  ⟨rfl, rfl, rfl, by decide, by decide⟩

/-- C10 fails on the code: for the logical name `demo` and the spec that `Check` yields
from `{name: "custom"}`, a successful `Create` starts `k3d cluster create demo`, and
`Delete` on the identifier and state it returned starts `k3d cluster delete custom`. -/
theorem delete_targets_other_name :
    (Create (stubHost "demo" (exitOk "") (exitOk "CRED")) "demo" customSpec false).err
      = none ∧
    (execs (Create (stubHost "demo" (exitOk "") (exitOk "CRED")) "demo" customSpec
        false).events).map Cmd.Args =
      [["k3d", "cluster", "create", "demo", "--config", "-"],
        ["k3d", "kubeconfig", "get", "demo"]] ∧
    (execs (Delete (stubHost "demo" (exitOk "") (exitOk "CRED"))
        (Create (stubHost "demo" (exitOk "") (exitOk "CRED")) "demo" customSpec false).id
        (Create (stubHost "demo" (exitOk "") (exitOk "CRED")) "demo" customSpec
          false).state).events).map Cmd.Args =
      [["k3d", "cluster", "delete", "custom"]] := by
  decide

/-! ## Further properties of the lifecycle -/

/-- After a successful real `Create`, the create and credential commands carry the
logical name while `Delete` on the returned identifier and state carries the `Name`
of the spec; the two commands name the same cluster exactly when the spec's `Name` is
the logical name. -/
theorem delete_after_create (h h2 : Host) (n : String) (s : ClusterArgs)
    (hp : h.StdinPipe = none)
    (hc : (h.Run (createCmd n (stdinConfig n s))).Err = none)
    (hk : (h.Run (kubeconfigCmd n)).Err = none) :
    execs (Create h n s false).events =
      [createCmd n (stdinConfig n s), kubeconfigCmd n] ∧
    execs (Delete h2 (Create h n s false).id (Create h n s false).state).events =
      [deleteCmd s.Name] ∧
    (deleteCmd s.Name = deleteCmd n ↔ s.Name = n) := by
  rw [Create_of_success h n s hp hc hk]
  refine ⟨rfl, execs_Delete h2 _ _, ?_⟩
  simp [deleteCmd]

/-- With the name supplied equal to the logical name, as `Check` sets it for `{}`. -/
theorem delete_after_create_witness :
    execs (Delete (stubHost "demo" (exitOk "") (exitOk ""))
      (Create (stubHost "demo" (exitOk "") (exitOk "CRED")) "demo" demoSpec false).id
      (Create (stubHost "demo" (exitOk "") (exitOk "CRED")) "demo" demoSpec
        false).state).events = [deleteCmd "demo"] :=
  (delete_after_create (stubHost "demo" (exitOk "") (exitOk "CRED"))
    (stubHost "demo" (exitOk "") (exitOk "")) "demo" demoSpec rfl (by decide)
    (by decide)).2.1

/-- When the create call fails, be it that the pipe to the child cannot be created,
that the child cannot be started or that it ends with a non-zero status, a real
`Create` returns a state with an empty `KubeConfig` and runs no command but the create
command; the error it returns is the error of the failed step when the writer's store
has not landed after the create call, and the value the writer stored when it has. -/
theorem create_failure_outcome (h : Host) (n : String) (s : ClusterArgs) (e : GoError)
    (hfail : h.StdinPipe = some e ∨
      (h.StdinPipe = none ∧ (h.Run (createCmd n (stdinConfig n s))).Err = some e)) :
    (Create h n s false).state.KubeConfig = "" ∧
    (∀ c ∈ execs (Create h n s false).events, c = createCmd n (stdinConfig n s)) ∧
    kubeconfigCmd n ∉ execs (Create h n s false).events ∧
    (h.WriterStore = none → (Create h n s false).err = some e) ∧
    (∀ w, h.StdinPipe = none → h.WriterStore = some w → (Create h n s false).err = w) := by
  rcases hfail with hp | ⟨hp, hc⟩
  · rw [Create_of_pipe_error h n s e hp]
    simp [execs, hp]
  · rw [Create_of_create_error h n s e hp hc]
    refine ⟨rfl, ?_, ?_, ?_, ?_⟩
    · simp [execs]
    · simp [execs, createCmd, kubeconfigCmd]
    · intro hw
      simp [hw]
    · intro w _ hw
      simp [hw]

/-- The stub create call exits 1 and the writer's store has landed before. -/
theorem create_failure_outcome_witness :
    (Create (stubHost "demo" (exitOne "boom") (exitOk "CRED")) "demo" demoSpec false).err
        = some (GoError.ExitError 1) ∧
    (Create (stubHost "demo" (exitOne "boom") (exitOk "CRED")) "demo" demoSpec
        false).state.KubeConfig = "" :=
  ⟨(create_failure_outcome (stubHost "demo" (exitOne "boom") (exitOk "CRED")) "demo"
      demoSpec (GoError.ExitError 1) (Or.inr ⟨rfl, by decide⟩)).2.2.2.1 rfl,
   (create_failure_outcome (stubHost "demo" (exitOne "boom") (exitOk "CRED")) "demo"
      demoSpec (GoError.ExitError 1) (Or.inr ⟨rfl, by decide⟩)).1⟩

/-- The `Version` of the spec reaches no command and no message: changing it changes
nothing of `Create` but the `Version` of the returned state. -/
theorem create_ignores_version (h : Host) (n v : String) (s : ClusterArgs)
    (preview : Bool) :
    (Create h n { s with Version := v } preview).events = (Create h n s preview).events ∧
    (Create h n { s with Version := v } preview).err = (Create h n s preview).err ∧
    (Create h n { s with Version := v } preview).id = (Create h n s preview).id ∧
    (Create h n { s with Version := v } preview).state =
      { (Create h n s preview).state with Version := v } := by
  have hcfg : stdinConfig n { s with Version := v } = stdinConfig n s := rfl
  cases preview with
  | true => simp [Create]
  | false =>
    cases hp : h.StdinPipe with
    | some e =>
      rw [Create_of_pipe_error h n _ e hp, Create_of_pipe_error h n s e hp]
      exact ⟨rfl, rfl, rfl, rfl⟩
    | none =>
      cases hc : (h.Run (createCmd n (stdinConfig n s))).Err with
      | some e =>
        rw [Create_of_create_error h n _ e hp (by rw [hcfg]; exact hc),
          Create_of_create_error h n s e hp hc]
        exact ⟨rfl, rfl, rfl, rfl⟩
      | none =>
        cases hk : (h.Run (kubeconfigCmd n)).Err with
        | some e =>
          rw [Create_of_fetch_error h n _ e hp (by rw [hcfg]; exact hc) hk,
            Create_of_fetch_error h n s e hp hc hk]
          exact ⟨rfl, rfl, rfl, rfl⟩
        | none =>
          rw [Create_of_success h n _ hp (by rw [hcfg]; exact hc) hk,
            Create_of_success h n s hp hc hk]
          exact ⟨rfl, rfl, rfl, rfl⟩

/-- When the pipe for standard input cannot be created, a real `Create` returns that
error with the logical name and a state without credential, runs no command and logs
nothing. -/
theorem create_pipe_failure (h : Host) (n : String) (s : ClusterArgs) (e : GoError)
    (hp : h.StdinPipe = some e) :
    (Create h n s false).err = some e ∧
    (Create h n s false).id = n ∧
    (Create h n s false).state = { toClusterArgs := s, KubeConfig := "" } ∧
    (Create h n s false).events = [] := by
  rw [Create_of_pipe_error h n s e hp]
  exact ⟨rfl, rfl, rfl, rfl⟩

/-- A host whose pipe creation fails. -/
theorem create_pipe_failure_witness :
    (Create { stubHost "demo" (exitOk "") (exitOk "CRED") with
        StdinPipe := some (GoError.Other "too many open files") } "demo" demoSpec
      false).events = [] :=
  (create_pipe_failure { stubHost "demo" (exitOk "") (exitOk "CRED") with
      StdinPipe := some (GoError.Other "too many open files") } "demo" demoSpec
    (GoError.Other "too many open files") rfl).2.2.2

/-- A map that has both `name` and `config` passes through `Check` unchanged. -/
theorem check_keeps_supplied (dc : PropertyMap → CheckResult) (n : String)
    (old m : PropertyMap) (v w : PropertyValue)
    (hn : m "name" = some v) (hc : m "config" = some w) :
    (Check dc n old m).1 = m ∧ (Check dc n old m).2 = dc m := by
  simp [Check, hn, hc]

/-- The desired state `{name: "custom", config: "x"}`. -/
theorem check_keeps_supplied_witness :
    (Check DefaultCheck "demo" PropertyMap.empty
      (customInputs.set "config" (NewStringProperty "x"))).2.args =
      { Name := "custom", Version := "", Config := "x" } :=
  (check_keeps_supplied DefaultCheck "demo" PropertyMap.empty
    (customInputs.set "config" (NewStringProperty "x")) (NewStringProperty "custom")
    (NewStringProperty "x") rfl rfl).2 ▸ rfl

/-- A spec with an empty config: the child reads `defaultConfig` of the logical name
on standard input, and the state returned on success still has the empty config. -/
theorem create_empty_config (h : Host) (n : String) (s : ClusterArgs)
    (hs : s.Config = "")
    (hp : h.StdinPipe = none)
    (hc : (h.Run (createCmd n (defaultConfig n))).Err = none)
    (hk : (h.Run (kubeconfigCmd n)).Err = none) :
    (execs (Create h n s false).events).map Cmd.Stdin = [some (defaultConfig n), none] ∧
    (Create h n s false).err = none ∧
    (Create h n s false).state.Config = "" := by
  have hcfg : stdinConfig n s = defaultConfig n := by simp [stdinConfig, hs]
  rw [Create_of_success h n s hp (by rw [hcfg]; exact hc) hk, hcfg]
  exact ⟨rfl, rfl, hs⟩

/-- The spec with nothing but the name `demo`. -/
theorem create_empty_config_witness :
    (Create (stubHost "demo" (exitOk "") (exitOk "CRED")) "demo"
      { Name := "demo", Version := "", Config := "" } false).state.Config = "" :=
  (create_empty_config (stubHost "demo" (exitOk "") (exitOk "CRED")) "demo"
    { Name := "demo", Version := "", Config := "" } rfl rfl (by decide) (by decide)).2.2

end provider
